import Mathlib

/-!
Shallow embedding of the extraction engine of the `us-tax-brackets` scraper
(`scraper/html_scraper.py`, `scraper/pdf_scraper.py`, `scraper/common.py`).
Strings are modelled as lists of characters; Python `int` values are `Int`;
the Python `float` values appearing here (rates and subtraction amounts) are
exact short decimal literals and are modelled as `ℚ`; Python exceptions are
modelled with `Except`.
-/

/-- Python strings, modelled as lists of characters. -/
abbrev Str := List Char

/-- Python's contiguous-substring test `needle in haystack`. -/
def isSubstr (needle : Str) : Str → Bool
  | [] => needle.isEmpty
  | c :: rest => needle.isPrefixOf (c :: rest) || isSubstr needle rest

/-- Python `text.split(sep)` for a one-character separator (keeps empty pieces). -/
def splitChar (sep : Char) : Str → List Str
  | [] => [[]]
  | c :: rest =>
    if c = sep then [] :: splitChar sep rest
    else
      match splitChar sep rest with
      | [] => [[c]]
      | t :: ts => (c :: t) :: ts

/-- Helper for `splitWs`; `cur` is the token being accumulated, reversed. -/
def splitWsGo (cur : Str) : Str → List Str
  | [] => if cur.isEmpty then [] else [cur.reverse]
  | c :: rest =>
    if c.isWhitespace then
      if cur.isEmpty then splitWsGo [] rest else cur.reverse :: splitWsGo [] rest
    else splitWsGo (c :: cur) rest

/-- Python `line.split()` with no argument: split on whitespace runs, dropping
empty pieces. -/
def splitWs (s : Str) : List Str := splitWsGo [] s

/-- Python `s.strip()` (restricted to the ASCII whitespace that occurs in the
scraped documents). -/
def stripWs (s : Str) : Str :=
  ((s.dropWhile Char.isWhitespace).reverse.dropWhile Char.isWhitespace).reverse

/-- Numeric value of a string of decimal digits. -/
def digitsToNat (ds : Str) : Nat := ds.foldl (fun n c => 10 * n + (c.toNat - 48)) 0

/-- Parse a nonempty all-digit string. -/
def decDigits? (ds : Str) : Option Nat :=
  if ds.isEmpty then none
  else if ds.all Char.isDigit then some (digitsToNat ds) else none

/-- Python `int(s)`: strip whitespace, optional sign, decimal digits.
(Underscore digit grouping and non-ASCII digits, which Python also accepts,
never occur in the scraped documents and are not modelled.) -/
def pyInt? (s : Str) : Option Int :=
  match stripWs s with
  | '-' :: ds => (decDigits? ds).map (fun n => -(n : Int))
  | '+' :: ds => (decDigits? ds).map (fun n => (n : Int))
  | ds => (decDigits? ds).map (fun n => (n : Int))

/-- The scraper's `parse_int(s)` = `int(s.replace(",", "").strip())`; also the
HTML row parser's `int(cell.replace(",", ""))`, since Python `int` strips. -/
def parse_int? (s : Str) : Option Int := pyInt? (s.filter (· != ','))

/-- Regex class `\s` (ASCII approximation of Python's `\s`). -/
def reWs (c : Char) : Bool := c.isWhitespace

/-- Regex class `[\d,]`. -/
def digitComma (c : Char) : Bool := c.isDigit || c == ','

/-- Try the pattern `\((\d+\.\d+)\)` at the start of `s`; on success return the
integer-part and fraction-part digit strings of the captured group. -/
def matchRateAt : Str → Option (Str × Str)
  | '(' :: r0 =>
    let d1 := r0.takeWhile Char.isDigit
    match r0.dropWhile Char.isDigit with
    | '.' :: r1 =>
      let d2 := r1.takeWhile Char.isDigit
      match r1.dropWhile Char.isDigit with
      | ')' :: _ => if d1.isEmpty || d2.isEmpty then none else some (d1, d2)
      | _ => none
    | _ => none
  | _ => none

/-- Try the pattern `\$\s*([\d,]+)` at the start of `s`; return the group. -/
def matchDollarIntAt : Str → Option Str
  | '$' :: r0 =>
    let g := (r0.dropWhile reWs).takeWhile digitComma
    if g.isEmpty then none else some g
  | _ => none

/-- Try the pattern `\$\s*([\d,]+\.\d+)` at the start of `s`; return the two
digit groups around the decimal point (commas included in the first). -/
def matchDollarDecAt : Str → Option (Str × Str)
  | '$' :: r0 =>
    let r1 := r0.dropWhile reWs
    let g1 := r1.takeWhile digitComma
    if g1.isEmpty then none
    else
      match r1.dropWhile digitComma with
      | '.' :: r2 =>
        let g2 := r2.takeWhile Char.isDigit
        if g2.isEmpty then none else some (g1, g2)
      | _ => none
  | _ => none

/-- Match a literal prefix, then continue with `m` on the remainder. -/
def matchAfterLit (lit : Str) (m : Str → Option α) (s : Str) : Option α :=
  if lit.isPrefixOf s then m (s.drop lit.length) else none

/-- Try the pattern `1040\s*\((\d{4})\)` at the start of `s`; return the four
digits of the captured group. -/
def matchYearAt (s : Str) : Option Str :=
  if ("1040".data).isPrefixOf s then
    match (s.drop 4).dropWhile reWs with
    | '(' :: a :: b :: c :: d :: ')' :: _ =>
      if [a, b, c, d].all Char.isDigit then some [a, b, c, d] else none
    | _ => none
  else none

/-- Python `re.search`: try a position matcher at every position of the string,
leftmost match wins. -/
def searchOpt (m : Str → Option α) : Str → Option α
  | [] => m []
  | c :: rest =>
    match m (c :: rest) with
    | some a => some a
    | none => searchOpt m rest

/-- One row of the Tax Table (the Python dict with these six keys; all six
fields are present by construction, mirroring the dict literal). -/
structure TaxTableRow where
  income_min : Int
  income_max : Int
  single : Int
  married_filing_jointly : Int
  married_filing_separately : Int
  head_of_household : Int
deriving DecidableEq

/-- One Tax Computation Worksheet bracket. The Python floats (`rate` and
`subtraction_amount`) are parsed from short decimal literals; they are
modelled exactly as rationals (no claim depends on IEEE-754 rounding). -/
structure WorksheetBracket where
  income_min : Option Int
  income_max : Option Int
  rate : ℚ
  subtraction_amount : ℚ
deriving DecidableEq

/-- Python exceptions raised by the scraper: `ValueError("Could not find ...")`
used as the structural-failure signal of the spec, and `ValueError` escaping
from `int()` on a comma-only regex group. -/
inductive PyError where
  | structureNotFound
  | valueError
deriving DecidableEq

instance {e a : Type} [DecidableEq e] [DecidableEq a] : DecidableEq (Except e a) := fun x y =>
  match x, y with
  | .ok u, .ok v =>
    if h : u = v then isTrue (by rw [h]) else isFalse (by intro hc; cases hc; exact h rfl)
  | .error u, .error v =>
    if h : u = v then isTrue (by rw [h]) else isFalse (by intro hc; cases hc; exact h rfl)
  | .ok _, .error _ => isFalse (by intro hc; cases hc)
  | .error _, .ok _ => isFalse (by intro hc; cases hc)

/-- One PDF page: its extracted text (`page.extract_text() or ""`) and its
structurally extracted tables (rows of optional cell strings). -/
structure PdfPage where
  text : Str
  tables : List (List (List (Option Str)))
deriving DecidableEq

/-- Constant `FILING_STATUSES` from common.py. -/
def FILING_STATUSES : List Str :=
  ["single".data, "married_filing_jointly".data, "married_filing_separately".data,
    "head_of_household".data]

/-- Constant `WORKSHEET_SECTION_LABELS` from common.py. -/
def WORKSHEET_SECTION_LABELS : List Str :=
  ["Section A".data, "Section B".data, "Section C".data, "Section D".data]

/-- Page marker "Tax Table". -/
def ttMarker : Str := "Tax Table".data

/-- Page marker "Your tax is". -/
def yourTaxMarker : Str := "Your tax is".data

/-- Page marker "At But". -/
def atButMarker : Str := "At But".data

/-- Page marker "Tax Computation Worksheet". -/
def wsMarker : Str := "Tax Computation Worksheet".data

/-- Value of the decimal literal with integer-part digits `ip` and
fraction-part digits `fp` (kernel-computable form). -/
def decToRat (ip fp : Str) : ℚ :=
  mkRat (digitsToNat ip * 10 ^ fp.length + digitsToNat fp) (10 ^ fp.length)

/-- Python `int(group.replace(",", ""))` for a `[\d,]+` regex group; `none`
models the `ValueError` raised when the group consists of commas only. -/
def groupToInt? (g : Str) : Option Int :=
  let ds := g.filter (· != ',')
  if ds.isEmpty then none else some (digitsToNat ds : Int)

/-- Income-bounds normalization, shared verbatim by the HTML and PDF worksheet
parsers (html_scraper.py lines 112-123, pdf_scraper.py lines 138-149). -/
def parse_income_bounds (t : Str) : Except PyError (Option Int × Option Int) := do
  let mn0 : Option Int ←
    match searchOpt matchDollarIntAt t with
    | none => pure none
    | some g =>
      match groupToInt? g with
      | none => throw .valueError
      | some v => pure (some v)
  let mx : Option Int ←
    match searchOpt (matchAfterLit "not over ".data matchDollarIntAt) t with
    | none => pure none
    | some g =>
      match groupToInt? g with
      | none => throw .valueError
      | some v => pure (some v)
  let mn : Option Int ←
    if isSubstr "Over".data t && mx.isNone then
      match searchOpt (matchAfterLit "Over ".data matchDollarIntAt) t with
      | none => pure mn0
      | some g =>
        match groupToInt? g with
        | none => throw .valueError
        | some v => pure (some v)
    else pure mn0
  return (mn, mx)

/-- Worksheet row field extraction given the three inspected cell texts (range,
rate, subtraction); textually identical in the HTML and PDF parsers. Returns
`none` for rows that are skipped. -/
def worksheetFields (range_text rate_cell sub_cell : Str) :
    Except PyError (Option WorksheetBracket) :=
  if !isSubstr "100,000".data range_text && !isSubstr "Over".data range_text then
    pure none
  else
    match searchOpt matchRateAt rate_cell with
    | none => pure none
    | some (ip, fp) =>
      let sub : ℚ :=
        match searchOpt matchDollarDecAt sub_cell with
        | none => 0
        | some (g1, g2) => decToRat (g1.filter (· != ',')) g2
      do
        let bounds ← parse_income_bounds range_text
        pure (some ⟨bounds.1, bounds.2, decToRat ip fp, sub⟩)

/-- Worksheet row parsing from an HTML table row (html_scraper.py lines
94-132): at least five cells, then the shared field extraction. -/
def parse_worksheet_row_html (cells : List Str) : Except PyError (Option WorksheetBracket) :=
  match cells with
  | c0 :: _ :: c2 :: _ :: c4 :: _ => worksheetFields c0 c2 c4
  | _ => pure none

/-- Worksheet row parsing from a PDF extracted-table row (pdf_scraper.py lines
119-158). A row is skipped when it is empty or its first cell is `None` or
empty; missing or `None` rate and subtraction cells default to `""`. -/
def parse_worksheet_row_pdf (row : List (Option Str)) :
    Except PyError (Option WorksheetBracket) :=
  match row with
  | [] => pure none
  | c0? :: _ =>
    match c0? with
    | none => pure none
    | some c0 =>
      if c0.isEmpty then pure none
      else worksheetFields c0 ((row.getD 2 none).getD []) ((row.getD 4 none).getD [])

/-- Accumulate parsed brackets over a table's rows, propagating exceptions. -/
def collectBrackets (f : α → Except PyError (Option WorksheetBracket)) :
    List α → Except PyError (List WorksheetBracket)
  | [] => pure []
  | r :: rs => do
    match ← f r with
    | some b => pure (b :: (← collectBrackets f rs))
    | none => collectBrackets f rs

/-- Sanity-check increments of pdf_scraper.py line 66: `diff in (5, 10, 25, 50)`. -/
def bracketWidths : List Int := [5, 10, 25, 50]

/-- One window attempt of the greedy scan (pdf_scraper.py lines 56-79): parse
six consecutive tokens starting at cursor `i` and apply the sanity checks.
`none` covers both a failed `parse_int` (the `except` branch) and a failed
sanity check; both advance the cursor by one. -/
def acceptWindow? (parts : List Str) (i : Nat) : Option TaxTableRow :=
  match parts.drop i with
  | a :: b :: c :: d :: e :: f :: _ =>
    match parse_int? a, parse_int? b, parse_int? c, parse_int? d, parse_int? e, parse_int? f with
    | some mn, some mx, some t1, some t2, some t3, some t4 =>
      if mx - mn ∈ bracketWidths ∧ mx ≤ 100000 ∧ 0 ≤ mn then
        some ⟨mn, mx, t1, t2, t3, t4⟩
      else none
    | _, _, _, _, _, _ => none
  | _ => none

/-- Cursor update of the greedy windowed scan: advance by 6 on acceptance, by 1
on rejection (pdf_scraper.py lines 80-84). -/
def nextCursor (parts : List Str) (i : Nat) : Nat :=
  match acceptWindow? parts i with
  | some _ => i + 6
  | none => i + 1

/-- Fuel-indexed form of the scan loop `while i + 5 < len(parts)`. Every
iteration consumes one unit of fuel and advances the cursor by at least one
while the guard requires `i + 5 < parts.length`, so from cursor 0 the loop
performs at most `parts.length` iterations and `parts.length` fuel reproduces
the Python loop exactly. -/
def windowScanF (parts : List Str) : Nat → Nat → List TaxTableRow
  | 0, _ => []
  | fuel + 1, i =>
    if i + 5 < parts.length then
      match acceptWindow? parts i with
      | some r => r :: windowScanF parts fuel (i + 6)
      | none => windowScanF parts fuel (i + 1)
    else []

/-- The greedy windowed scan over one line's tokens. -/
def windowScan (parts : List Str) : List TaxTableRow := windowScanF parts parts.length 0

/-- Number of loop iterations performed by the scan from cursor `i`, with the
same fuel discipline as `windowScanF`. -/
def scanStepsF (parts : List Str) : Nat → Nat → Nat
  | 0, _ => 0
  | fuel + 1, i =>
    if i + 5 < parts.length then scanStepsF parts fuel (nextCursor parts i) + 1 else 0

/-- Per-line processing of an in-tax-table page (pdf_scraper.py lines 40-53):
strip, skip empty lines, skip lines with fewer than six tokens or whose first
token is not an integer, then scan. -/
def lineRows (rawLine : Str) : List TaxTableRow :=
  let line := stripWs rawLine
  if line.isEmpty then []
  else
    let parts := splitWs line
    if parts.length < 6 then []
    else
      match parts with
      | [] => []
      | p0 :: _ => if (parse_int? p0).isSome then windowScan parts else []

/-- Rows recovered from one in-tax-table page's text. -/
def pageRows (text : Str) : List TaxTableRow :=
  ((splitChar '\n' text).map lineRows).flatten

/-- Page-level state update (pdf_scraper.py lines 32-35). The Python code is an
`if`/`elif`, so the tax-table test takes priority over the worksheet test. -/
def taxTablePageStep (inTaxTable : Bool) (text : Str) : Bool :=
  if isSubstr ttMarker text && (isSubstr yourTaxMarker text || isSubstr atButMarker text) then
    true
  else if isSubstr wsMarker text then false
  else inTaxTable

/-- Page loop of `parse_tax_table_pdf` (pdf_scraper.py lines 29-84): pages are
handed to the line scanner exactly when the state after the update is
in-tax-table. -/
def taxTableScan : Bool → List PdfPage → List TaxTableRow
  | _, [] => []
  | inTT, p :: ps =>
    let s := taxTablePageStep inTT p.text
    (if s then pageRows p.text else []) ++ taxTableScan s ps

/-- Dedup key, pdf_scraper.py line 90. -/
def rowKey (r : TaxTableRow) : Int × Int := (r.income_min, r.income_max)

/-- Sort comparison of `results.sort(key=lambda r: r["income_min"])`. -/
def rowLE (a b : TaxTableRow) : Prop := a.income_min ≤ b.income_min

instance : DecidableRel rowLE :=
  fun a b => inferInstanceAs (Decidable (a.income_min ≤ b.income_min))

instance : IsTotal TaxTableRow rowLE := ⟨fun _ _ => Int.le_total _ _⟩

instance : IsTrans TaxTableRow rowLE := ⟨fun _ _ _ h1 h2 => le_trans h1 h2⟩

/-- Dedup walk keeping the first row seen per key (pdf_scraper.py lines 87-93). -/
def dedupGo (seen : List (Int × Int)) : List TaxTableRow → List TaxTableRow
  | [] => []
  | r :: rs =>
    if rowKey r ∈ seen then dedupGo seen rs
    else r :: dedupGo (rowKey r :: seen) rs

/-- Candidate resolver (pdf_scraper.py lines 86-93): stable sort by
`income_min`, then first-per-key dedup. Python's `list.sort` is stable, and a
stable sort is uniquely determined by the comparison key; `List.insertionSort`
is stable for this total preorder, so it computes the same list. -/
def resolveRows (l : List TaxTableRow) : List TaxTableRow :=
  dedupGo [] (List.insertionSort rowLE l)

/-- Embedding of `parse_tax_table_pdf` (pdf_scraper.py lines 24-96). -/
def parse_tax_table_pdf (pages : List PdfPage) : List TaxTableRow :=
  resolveRows (taxTableScan false pages)

/-- Exact-6-row candidate filter (pdf_scraper.py line 109). -/
def tablesLen6 (ts : List (List (List (Option Str)))) : List (List (List (Option Str))) :=
  ts.filter (fun t => t.length == 6)

/-- Relaxed 5-to-7-row candidate filter (pdf_scraper.py line 112). -/
def tablesLen5to7 (ts : List (List (List (Option Str)))) : List (List (List (Option Str))) :=
  ts.filter (fun t => decide (5 ≤ t.length ∧ t.length ≤ 7))

/-- Qualifying tables of one page after the exact-then-relaxed filtering
(pdf_scraper.py lines 108-112). -/
def pdfQualTables (ts : List (List (List (Option Str)))) : List (List (List (Option Str))) :=
  if (tablesLen6 ts).length < 4 then tablesLen5to7 ts else tablesLen6 ts

/-- Per-status bracket extraction over the first four qualifying tables
(pdf_scraper.py lines 117-161). -/
def worksheetTablesPdf :
    List (Str × List (List (Option Str))) → Except PyError (List (Str × List WorksheetBracket))
  | [] => pure []
  | (st, tbl) :: rest => do
    let bs ← collectBrackets parse_worksheet_row_pdf tbl
    pure ((st, bs) :: (← worksheetTablesPdf rest))

/-- Embedding of `parse_computation_worksheet_pdf` (pdf_scraper.py lines
99-165): the first page containing the worksheet marker and at least four
qualifying tables is processed and the scan breaks; when no page qualifies the
loop falls through and the empty mapping is returned (nothing is raised). -/
def parse_computation_worksheet_pdf :
    List PdfPage → Except PyError (List (Str × List WorksheetBracket))
  | [] => pure []
  | p :: ps =>
    if isSubstr wsMarker p.text then
      let wt := pdfQualTables p.tables
      if wt.length < 4 then parse_computation_worksheet_pdf ps
      else worksheetTablesPdf (FILING_STATUSES.zip (wt.take 4))
    else parse_computation_worksheet_pdf ps

/-- HTML document abstraction: the pieces of the BeautifulSoup tree inspected
by the scraper. `h2Texts` are the stripped texts of the `h2` elements in
document order; `tablesAfterTaxTableHeading` are the tables following the
first `h2` reading "Tax Table" in `find_all_next` order, as rows of cell
texts; `sectionLookup label` models locating the text node containing `label`
together with "filing status" and taking the next table after its parent
(`none` = no such text node, `some none` = node found but no following table,
`some (some rows)` = that table's rows). -/
structure HtmlDoc where
  title : Option Str
  h2Texts : List Str
  tablesAfterTaxTableHeading : List (List (List Str))
  sectionLookup : Str → Option (Option (List (List Str)))

/-- Embedding of `detect_html_year` (html_scraper.py lines 19-26). -/
def detect_html_year (doc : HtmlDoc) : Option Int :=
  (searchOpt matchYearAt (doc.title.getD [])).map (fun ds => (digitsToNat ds : Int))

/-- Row loop of the HTML tax-table parser (html_scraper.py lines 48-69): at
least six cells, the first two parse as the bounds, the next four as the tax
amounts, any parse failure silently skips the row. -/
def parseTaxRowHtml (cells : List Str) : Option TaxTableRow :=
  match cells with
  | c0 :: c1 :: c2 :: c3 :: c4 :: c5 :: _ =>
    match parse_int? c0, parse_int? c1 with
    | some mn, some mx =>
      match parse_int? c2, parse_int? c3, parse_int? c4, parse_int? c5 with
      | some t1, some t2, some t3, some t4 => some ⟨mn, mx, t1, t2, t3, t4⟩
      | _, _, _, _ => none
    | _, _ => none
  | _ => none

/-- Embedding of `parse_tax_table_html` (html_scraper.py lines 29-72): find the
"Tax Table" heading, take the first following table with more than 100 rows,
and run the row loop over its rows. -/
def parse_tax_table_html (doc : HtmlDoc) : Except PyError (List TaxTableRow) :=
  if doc.h2Texts.any (fun t => t == ttMarker) then
    match doc.tablesAfterTaxTableHeading.find? (fun t => decide (100 < t.length)) with
    | some big => pure (big.filterMap parseTaxRowHtml)
    | none => throw .structureNotFound
  else throw .structureNotFound

/-- Section loop of `parse_computation_worksheet_html` (html_scraper.py lines
79-135): a missing section text node or a missing following table aborts the
whole worksheet extraction. -/
def worksheetSectionsHtml (doc : HtmlDoc) :
    List (Str × Str) → Except PyError (List (Str × List WorksheetBracket))
  | [] => pure []
  | (label, status) :: rest =>
    match doc.sectionLookup label with
    | none => throw .structureNotFound
    | some none => throw .structureNotFound
    | some (some rows) => do
      let bs ← collectBrackets parse_worksheet_row_html rows
      pure ((status, bs) :: (← worksheetSectionsHtml doc rest))

/-- Embedding of `parse_computation_worksheet_html` (html_scraper.py lines
75-137). -/
def parse_computation_worksheet_html (doc : HtmlDoc) :
    Except PyError (List (Str × List WorksheetBracket)) :=
  worksheetSectionsHtml doc (WORKSHEET_SECTION_LABELS.zip FILING_STATUSES)

/-- Extraction output per document: the tax-table rows and the per-status
worksheet brackets in filing-status order. -/
structure ExtractionResult where
  tax_table : List TaxTableRow
  worksheet : List (Str × List WorksheetBracket)

/-- Embedding of `scrape_html` after the document fetch (html_scraper.py lines
140-165). The Boolean is the function's return value; the optional result is
the data handed to the CSV writers (`none` when nothing is written). On a year
mismatch the function returns `False` before any parsing. -/
def scrape_html (year : Int) (doc : HtmlDoc) :
    Except PyError (Bool × Option ExtractionResult) :=
  if detect_html_year doc ≠ some year then pure (false, none)
  else do
    let tt ← parse_tax_table_html doc
    let ws ← parse_computation_worksheet_html doc
    pure (true, some ⟨tt, ws⟩)

theorem acceptWindow?_spec {parts : List Str} {i : Nat} {r : TaxTableRow}
    (h : acceptWindow? parts i = some r) :
    r.income_max - r.income_min ∈ bracketWidths ∧ r.income_max ≤ 100000 ∧ 0 ≤ r.income_min := by
  unfold acceptWindow? at h
  split at h
  · split at h
    · split at h
      · obtain rfl : _ = r := Option.some.inj h
        assumption
      · exact Option.noConfusion h
    · exact Option.noConfusion h
  · exact Option.noConfusion h

theorem mem_windowScanF {parts : List Str} {r : TaxTableRow} :
    ∀ {fuel i : Nat}, r ∈ windowScanF parts fuel i → ∃ j, acceptWindow? parts j = some r := by
  intro fuel
  induction fuel with
  | zero => intro i h; simp [windowScanF] at h
  | succ n ih =>
    intro i h
    unfold windowScanF at h
    split at h
    · split at h
      next r0 heq =>
        rcases List.mem_cons.mp h with rfl | h'
        · exact ⟨i, heq⟩
        · exact ih h'
      next heq => exact ih h
    · simp at h

theorem mem_lineRows {line : Str} {r : TaxTableRow} (h : r ∈ lineRows line) :
    ∃ parts j, acceptWindow? parts j = some r := by
  unfold lineRows at h
  dsimp only at h
  split at h
  · simp at h
  · split at h
    · simp at h
    · split at h
      · simp at h
      · split at h
        · obtain ⟨j, hj⟩ := mem_windowScanF h
          exact ⟨_, j, hj⟩
        · simp at h

theorem mem_pageRows {text : Str} {r : TaxTableRow} (h : r ∈ pageRows text) :
    ∃ parts j, acceptWindow? parts j = some r := by
  unfold pageRows at h
  rw [List.mem_flatten] at h
  obtain ⟨l, hl, hr⟩ := h
  rw [List.mem_map] at hl
  obtain ⟨line, _, rfl⟩ := hl
  exact mem_lineRows hr

theorem mem_taxTableScan {r : TaxTableRow} :
    ∀ {s : Bool} {pages : List PdfPage}, r ∈ taxTableScan s pages →
      ∃ parts j, acceptWindow? parts j = some r := by
  intro s pages
  induction pages generalizing s with
  | nil => intro h; simp [taxTableScan] at h
  | cons p ps ih =>
    intro h
    unfold taxTableScan at h
    rcases List.mem_append.mp h with h' | h'
    · split at h'
      · exact mem_pageRows h'
      · simp at h'
    · exact ih h'

theorem dedupGo_sublist (seen : List (Int × Int)) (l : List TaxTableRow) :
    (dedupGo seen l).Sublist l := by
  induction l generalizing seen with
  | nil => simp [dedupGo]
  | cons r rs ih =>
    unfold dedupGo
    split
    · exact (ih seen).trans (List.sublist_cons_self r rs)
    · exact (ih _).cons₂ r

theorem mem_dedupGo_not_seen {seen : List (Int × Int)} {l : List TaxTableRow}
    {r : TaxTableRow} (h : r ∈ dedupGo seen l) : rowKey r ∉ seen := by
  induction l generalizing seen with
  | nil => simp [dedupGo] at h
  | cons x xs ih =>
    unfold dedupGo at h
    split at h
    · exact ih h
    · rcases List.mem_cons.mp h with rfl | h'
      · assumption
      · have h2 := ih h'
        exact fun hc => h2 (List.mem_cons_of_mem _ hc)

theorem dedupGo_pairwise (seen : List (Int × Int)) (l : List TaxTableRow) :
    (dedupGo seen l).Pairwise (fun a b => rowKey a ≠ rowKey b) := by
  induction l generalizing seen with
  | nil => simp [dedupGo]
  | cons x xs ih =>
    unfold dedupGo
    split
    · exact ih seen
    · refine List.Pairwise.cons ?_ (ih _)
      intro b hb hc
      exact mem_dedupGo_not_seen hb (hc ▸ List.mem_cons_self _ _)

theorem dedupGo_eq_self {seen : List (Int × Int)} {l : List TaxTableRow}
    (h1 : ∀ r ∈ l, rowKey r ∉ seen)
    (h2 : l.Pairwise (fun a b => rowKey a ≠ rowKey b)) : dedupGo seen l = l := by
  induction l generalizing seen with
  | nil => simp [dedupGo]
  | cons x xs ih =>
    unfold dedupGo
    rw [if_neg (h1 x (List.mem_cons_self _ _))]
    congr 1
    apply ih
    · intro r hr hc
      rcases List.mem_cons.mp hc with hc' | hc'
      · exact (List.pairwise_cons.mp h2).1 r hr hc'.symm
      · exact h1 r (List.mem_cons_of_mem _ hr) hc'
    · exact (List.pairwise_cons.mp h2).2

theorem resolveRows_sorted (l : List TaxTableRow) : (resolveRows l).Pairwise rowLE :=
  List.Pairwise.sublist (dedupGo_sublist [] _) (List.sorted_insertionSort rowLE l)

theorem resolveRows_pairwise_key (l : List TaxTableRow) :
    (resolveRows l).Pairwise (fun a b => rowKey a ≠ rowKey b) :=
  dedupGo_pairwise [] _

theorem resolveRows_of_canonical {m : List TaxTableRow} (hs : m.Pairwise rowLE)
    (hk : m.Pairwise fun a b => rowKey a ≠ rowKey b) : resolveRows m = m := by
  unfold resolveRows
  rw [List.Sorted.insertionSort_eq hs]
  exact dedupGo_eq_self (by simp) hk

theorem mem_resolveRows {l : List TaxTableRow} {r : TaxTableRow}
    (h : r ∈ resolveRows l) : r ∈ l :=
  (List.perm_insertionSort rowLE l).subset ((dedupGo_sublist [] _).subset h)

theorem pdf_row_props {pages : List PdfPage} {r : TaxTableRow}
    (h : r ∈ parse_tax_table_pdf pages) :
    r.income_max - r.income_min ∈ bracketWidths ∧ r.income_max ≤ 100000 ∧ 0 ≤ r.income_min := by
  obtain ⟨parts, j, hj⟩ := mem_taxTableScan (mem_resolveRows h)
  exact acceptWindow?_spec hj

/-- Concrete PDF input: one tax-table page with one valid data line. -/
def pagesGood : List PdfPage := [⟨"Tax Table Your tax is\n0 5 1 1 1 1".data, []⟩]

/-- The row recovered from `pagesGood`. -/
def rowGood : TaxTableRow := ⟨0, 5, 1, 1, 1, 1⟩

/-- Concrete PDF input whose two accepted rows share `income_min = 0`. -/
def c2Pages : List PdfPage :=
  [⟨"Tax Table Your tax is\n0 5 1 1 1 1\n0 10 1 1 1 1".data, []⟩]

/-- Concrete PDF input whose accepted window carries a negative tax amount. -/
def c4Pages : List PdfPage := [⟨"Tax Table Your tax is\n0 5 -1 2 3 4".data, []⟩]

/-- Concrete HTML document whose 101-row table contains one width-100 data row
(the other 100 rows have fewer than six cells and are skipped). -/
def c1Doc : HtmlDoc :=
  ⟨none, ["Tax Table".data],
    [(["0".data, "100".data, "1".data, "1".data, "1".data, "1".data]
      :: List.replicate 100 ["x".data])],
    fun _ => none⟩

/-- Concrete PDF page containing the worksheet marker and no tables at all. -/
def c3Page : PdfPage := ⟨wsMarker, []⟩

/-- Concrete page text containing both the worksheet marker and the tax-table
markers, followed by a valid data line. -/
def c6Text : Str := "Tax Table Your tax is Tax Computation Worksheet\n0 5 1 1 1 1".data

/-- Concrete PDF input consisting of the page with text `c6Text`. -/
def c6Pages : List PdfPage := [⟨c6Text, []⟩]

/-- Concrete HTML document titled for tax year 2024. -/
def c8Doc : HtmlDoc :=
  ⟨some "1040 (2024) | Internal Revenue Service".data, [], [], fun _ => none⟩

/-- Concrete worksheet row: range cell contains "Over" but no dollar amount,
rate cell matches the parenthesized-decimal pattern. -/
def c9Cells : List Str := ["Over the threshold".data, [], "(0.35)".data, [], []]

/-- The same row in the PDF extracted-table cell shape. -/
def c9CellsOpt : List (Option Str) := c9Cells.map some

/-- The bracket the worksheet parsers emit for `c9Cells`. -/
def c9Bracket : WorksheetBracket := ⟨none, none, mkRat 35 100, 0⟩

/-- Concrete 7-token line for exercising the windowed scan. -/
def wParts : List Str :=
  ["0".data, "5".data, "1".data, "1".data, "1".data, "1".data, "9".data]

/-- C5: on range text "At least $100,000 but not over $103,350" the
income-bounds normalizer produces `income_min = 100000` and
`income_max = 103350`; on "Over $626,350" it produces `income_min = 626350`
with `income_max` absent. -/
theorem income_bounds_scenarios :
    parse_income_bounds "At least $100,000 but not over $103,350".data
        = .ok (some 100000, some 103350) ∧
      parse_income_bounds "Over $626,350".data = .ok (some 626350, none) := by decide

/-- C7: the candidate resolver/deduplicator is idempotent — applying the
sort-by-income_min-then-dedup-on-(income_min, income_max) step to its own
output yields the same sequence, for every input list of tax-table rows. -/
theorem resolver_idempotent (l : List TaxTableRow) :
    resolveRows (resolveRows l) = resolveRows l :=
  resolveRows_of_canonical (resolveRows_sorted l) (resolveRows_pairwise_key l)

/-- C9: a worksheet table row whose range cell contains "Over" and whose rate
cell matches the parenthesized-decimal pattern, but whose range cell contains
no dollar-prefixed number, is accepted by both the HTML and the PDF worksheet
parser with `income_min` absent. -/
theorem worksheet_row_income_min_absent :
    parse_worksheet_row_html c9Cells = .ok (some c9Bracket) ∧
      parse_worksheet_row_pdf c9CellsOpt = .ok (some c9Bracket) ∧
      c9Bracket.income_min = none := by decide

/-- C1 (amended): every tax-table row accepted by the PDF extraction path has
bracket width `income_max - income_min` in {5, 10, 25, 50} and
`income_max ≤ 100000`; the HTML path does not enforce the width restriction
(see the counterexample). -/
theorem pdf_rows_width_in_increments (pages : List PdfPage) (r : TaxTableRow)
    (h : r ∈ parse_tax_table_pdf pages) :
    r.income_max - r.income_min ∈ bracketWidths ∧ r.income_max ≤ 100000 :=
  ⟨(pdf_row_props h).1, (pdf_row_props h).2.1⟩

/-- Witness for C1's amended theorem at a concrete one-page PDF input. -/
theorem pdf_rows_width_in_increments_witness :
    rowGood ∈ parse_tax_table_pdf pagesGood ∧
      (rowGood.income_max - rowGood.income_min ∈ bracketWidths ∧
        rowGood.income_max ≤ 100000) :=
  ⟨by decide, pdf_rows_width_in_increments pagesGood rowGood (by decide)⟩

/-- Counterexample to C1 as stated: the HTML tax-table row loop accepts a row
of bracket width 100 whose `income_max` is at most 100000. -/
theorem html_row_width_unchecked :
    parse_tax_table_html c1Doc = .ok [⟨0, 100, 1, 1, 1, 1⟩] ∧
      (⟨0, 100, 1, 1, 1, 1⟩ : TaxTableRow).income_max ≤ 100000 ∧
      (⟨0, 100, 1, 1, 1, 1⟩ : TaxTableRow).income_max -
          (⟨0, 100, 1, 1, 1, 1⟩ : TaxTableRow).income_min ∉ bracketWidths := by decide

/-- C2 (amended): the PDF resolver's output is non-decreasing in `income_min`
and no two output rows share the same `(income_min, income_max)` key; strict
increase and non-overlap fail when two accepted rows share `income_min` with
different `income_max` (see the counterexample). -/
theorem pdf_rows_sorted_and_key_distinct (pages : List PdfPage) :
    (parse_tax_table_pdf pages).Pairwise
      (fun a b => rowLE a b ∧ rowKey a ≠ rowKey b) := by
  unfold parse_tax_table_pdf
  exact List.Pairwise.and (resolveRows_sorted _) (resolveRows_pairwise_key _)

/-- Counterexample to C2 as stated: on `c2Pages` the resolver output has two
consecutive rows with equal `income_min` (and overlapping ranges [0,5] and
[0,10]), so the output is not strictly increasing in `income_min`. -/
theorem pdf_rows_not_strictly_increasing :
    parse_tax_table_pdf c2Pages = [⟨0, 5, 1, 1, 1, 1⟩, ⟨0, 10, 1, 1, 1, 1⟩] ∧
      ¬ ((⟨0, 5, 1, 1, 1, 1⟩ : TaxTableRow).income_min
          < (⟨0, 10, 1, 1, 1, 1⟩ : TaxTableRow).income_min) := by decide

/-- C4 (amended): every tax-table row accepted by the PDF extraction path
satisfies `income_max > income_min` and `income_min ≥ 0` (the four tax fields
are present by construction); non-negativity of the four tax-liability fields
is not checked (see the counterexample), and the HTML path enforces neither
the bound ordering nor non-negativity. -/
theorem pdf_rows_min_lt_max (pages : List PdfPage) (r : TaxTableRow)
    (h : r ∈ parse_tax_table_pdf pages) :
    r.income_min < r.income_max ∧ 0 ≤ r.income_min := by
  obtain ⟨hw, _, hmn⟩ := pdf_row_props h
  refine ⟨?_, hmn⟩
  simp only [bracketWidths, List.mem_cons, List.not_mem_nil, or_false] at hw
  omega

/-- Witness for C4's amended theorem at a concrete one-page PDF input. -/
theorem pdf_rows_min_lt_max_witness :
    rowGood ∈ parse_tax_table_pdf pagesGood ∧
      (rowGood.income_min < rowGood.income_max ∧ 0 ≤ rowGood.income_min) :=
  ⟨by decide, pdf_rows_min_lt_max pagesGood rowGood (by decide)⟩

/-- Counterexample to C4 as stated: the PDF windowed scan accepts a row whose
`single` tax-liability field is negative. -/
theorem pdf_accepts_negative_tax_field :
    parse_tax_table_pdf c4Pages = [⟨0, 5, -1, 2, 3, 4⟩] ∧
      (⟨0, 5, -1, 2, 3, 4⟩ : TaxTableRow).single < 0 := by decide

/-- C3 (amended): when every page whose text contains "Tax Computation
Worksheet" has fewer than 4 qualifying tables under both the exact-6-row
filter and the relaxed 5-to-7-row filter, the PDF worksheet extraction
returns successfully with the empty mapping — it does not fail with a
structural error (see the counterexample). -/
theorem pdf_worksheet_under_four_tables_empty (pages : List PdfPage)
    (h : ∀ p ∈ pages, isSubstr wsMarker p.text = true →
      (tablesLen6 p.tables).length < 4 ∧ (tablesLen5to7 p.tables).length < 4) :
    parse_computation_worksheet_pdf pages = .ok [] := by
  induction pages with
  | nil => rfl
  | cons p ps ih =>
    unfold parse_computation_worksheet_pdf
    split
    · next hm =>
      have hp := h p (List.mem_cons_self _ _) hm
      have hq : (pdfQualTables p.tables).length < 4 := by
        unfold pdfQualTables
        split
        · exact hp.2
        · next hn => exact absurd hp.1 hn
      rw [if_pos hq]
      exact ih (fun q hq2 => h q (List.mem_cons_of_mem _ hq2))
    · exact ih (fun q hq2 => h q (List.mem_cons_of_mem _ hq2))

/-- Witness for C3's amended theorem at a concrete one-page PDF input. -/
theorem pdf_worksheet_under_four_tables_empty_witness :
    (∀ p ∈ [c3Page], isSubstr wsMarker p.text = true →
      (tablesLen6 p.tables).length < 4 ∧ (tablesLen5to7 p.tables).length < 4) ∧
      parse_computation_worksheet_pdf [c3Page] = .ok [] :=
  ⟨by decide, pdf_worksheet_under_four_tables_empty [c3Page] (by decide)⟩

/-- Counterexample to C3 as stated: on a document whose only
worksheet-marker page has zero qualifying tables under either filter, the PDF
worksheet extraction returns `Except.ok []` (success with an empty result)
instead of delivering a structural error to the caller. -/
theorem pdf_worksheet_no_error_on_missing_tables :
    isSubstr wsMarker c3Page.text = true ∧
      (tablesLen6 c3Page.tables).length < 4 ∧
      (tablesLen5to7 c3Page.tables).length < 4 ∧
      parse_computation_worksheet_pdf [c3Page] = .ok [] := by decide

/-- C6 (amended): a page whose text contains "Tax Computation Worksheet"
transitions the state machine to NotInTaxTable only when the page does not
also satisfy the InTaxTable test ("Tax Table" together with "Your tax is" or
"At But"); under that proviso none of the page's lines reach the segmenter
and the scan continues from the NotInTaxTable state. A page containing both
marker sets transitions to InTaxTable instead (see the counterexample). -/
theorem worksheet_marker_leaves_tax_table (s : Bool) (text : Str)
    (tbls : List (List (List (Option Str)))) (ps : List PdfPage)
    (h1 : isSubstr wsMarker text = true)
    (h2 : (isSubstr ttMarker text
        && (isSubstr yourTaxMarker text || isSubstr atButMarker text)) = false) :
    taxTablePageStep s text = false ∧
      taxTableScan s (⟨text, tbls⟩ :: ps) = taxTableScan false ps := by
  have hstep : taxTablePageStep s text = false := by
    unfold taxTablePageStep
    simp [h1, h2]
  refine ⟨hstep, ?_⟩
  have heq : taxTableScan s (⟨text, tbls⟩ :: ps)
      = (if taxTablePageStep s text = true then pageRows text else [])
        ++ taxTableScan (taxTablePageStep s text) ps := rfl
  rw [heq, hstep]
  simp

/-- Witness for C6's amended theorem at a concrete page. -/
theorem worksheet_marker_leaves_tax_table_witness :
    isSubstr wsMarker wsMarker = true ∧
      (isSubstr ttMarker wsMarker
        && (isSubstr yourTaxMarker wsMarker || isSubstr atButMarker wsMarker)) = false ∧
      (taxTablePageStep true wsMarker = false ∧
        taxTableScan true (⟨wsMarker, []⟩ :: []) = taxTableScan false []) :=
  ⟨by decide, by decide,
    worksheet_marker_leaves_tax_table true wsMarker [] [] (by decide) (by decide)⟩

/-- Counterexample to C6 as stated: a page whose text contains "Tax
Computation Worksheet" but also "Tax Table" and "Your tax is" transitions to
InTaxTable, and its lines are handed to the segmenter (the data line on the
same page produces an output row). -/
theorem both_markers_page_enters_tax_table :
    isSubstr wsMarker c6Text = true ∧
      taxTablePageStep false c6Text = true ∧
      parse_tax_table_pdf c6Pages = [⟨0, 5, 1, 1, 1, 1⟩] := by decide

/-- C8: for every requested year, when the detected HTML year differs from the
requested year, `scrape_html` returns the no-match outcome (`False`) without
raising and without producing any extraction output. -/
theorem scrape_html_year_mismatch (year : Int) (doc : HtmlDoc)
    (h : detect_html_year doc ≠ some year) :
    scrape_html year doc = .ok (false, none) := by
  unfold scrape_html
  rw [if_pos h]
  rfl

/-- Witness for C8 at a concrete 2024-titled document and requested year 2025. -/
theorem scrape_html_year_mismatch_witness :
    detect_html_year c8Doc ≠ some 2025 ∧
      scrape_html 2025 c8Doc = .ok (false, none) :=
  ⟨by decide, scrape_html_year_mismatch 2025 c8Doc (by decide)⟩

/-- C10: the greedy windowed scan terminates on every finite token sequence —
each iteration advances the cursor by exactly 6 (window accepted) or exactly 1
(window rejected), so the cursor strictly increases, the iteration count is
bounded by the number of tokens, and under the loop guard one unfolding of the
scan is one window attempt followed by the scan from the advanced cursor. -/
theorem window_scan_terminates (parts : List Str) (i fuel : Nat) :
    (nextCursor parts i = i + 6 ∨ nextCursor parts i = i + 1) ∧
      i < nextCursor parts i ∧
      scanStepsF parts fuel i ≤ parts.length - i ∧
      (i + 5 < parts.length →
        windowScanF parts (fuel + 1) i =
          (acceptWindow? parts i).toList ++ windowScanF parts fuel (nextCursor parts i)) := by
  refine ⟨?_, ?_, ?_, ?_⟩
  · unfold nextCursor
    split
    · exact Or.inl rfl
    · exact Or.inr rfl
  · unfold nextCursor
    split <;> omega
  · induction fuel generalizing i with
    | zero => simp [scanStepsF]
    | succ n ih =>
      unfold scanStepsF
      split
      · next hlt =>
        have h1 : i < nextCursor parts i := by unfold nextCursor; split <;> omega
        have h2 := ih (nextCursor parts i)
        omega
      · omega
  · intro hlt
    cases hacc : acceptWindow? parts i with
    | some r => simp [windowScanF, nextCursor, hacc, hlt]
    | none => simp [windowScanF, nextCursor, hacc, hlt]

/-- Witness for C10 at a concrete 7-token line, cursor 0, fuel 7. -/
theorem window_scan_terminates_witness :
    (0 + 5 < wParts.length) ∧
      ((nextCursor wParts 0 = 0 + 6 ∨ nextCursor wParts 0 = 0 + 1) ∧
        0 < nextCursor wParts 0 ∧
        scanStepsF wParts 7 0 ≤ wParts.length - 0 ∧
        windowScanF wParts (7 + 1) 0 =
          (acceptWindow? wParts 0).toList ++ windowScanF wParts 7 (nextCursor wParts 0)) :=
  ⟨by decide, by
    have h := window_scan_terminates wParts 0 7
    exact ⟨h.1, h.2.1, h.2.2.1, h.2.2.2 (by decide)⟩⟩
